import Mathlib

/-
Verification of the nqrduck-measurement module (controller.py, view.py,
signalprocessing_options.py) against its natural-language specification.

The module under verification is a plugin: its `Measurement` record,
`Function` base class and `T2StarFit` come from the host packages
(nqrduck_spectrometer.measurement, nqrduck.helpers.functions) whose sources
are not part of this repository.  Definitions embedding those parts carry a
`Modelled from the spec:` note; everything else is translated directly from
the repository sources.
-/

set_option autoImplicit false

namespace NqrduckMeasurement

/-! ## The measurement record and its transform (host package, spec-modelled) -/

/-- Modelled from the spec: `Measurement` from `nqrduck_spectrometer.measurement`
is not in this repository.  Per the spec it holds an ordered sequence of
(time, complex amplitude) samples and a derived ordered sequence of
(frequency, complex amplitude) samples.  Times and frequencies are the
`tdx`/`fdx` axes, amplitudes the `tdy`/`fdy` values (the attribute names used
by `controller.py` and `view.py`). -/
structure Measurement where
  tdx : List ℝ
  tdy : List ℂ
  fdx : List ℝ
  fdy : List ℂ

/-- One entry of the discrete Fourier transform of a list of complex samples:
`X_k = Σ_n x_n · exp(-2πi·k·n/N)`. -/
noncomputable def dftEntry (l : List ℂ) (k : ℕ) : ℂ :=
  ∑ n ∈ Finset.range l.length,
    l.getD n 0 * Complex.exp (-2 * Real.pi * Complex.I * k * n / l.length)

/-- Modelled from the spec: the forward transform computing the
frequency-domain samples from the time-domain samples is the discrete
Fourier transform (spec section 3; computed in the host package, not in
this repository). -/
noncomputable def dft (l : List ℂ) : List ℂ :=
  (List.range l.length).map (dftEntry l)

/-- Modelled from the spec: a measurement built from raw time-domain data has
its frequency-domain samples computed via the discrete Fourier transform of
the time-domain samples (the forward FFT is recomputed whenever raw data
changes). -/
noncomputable def Measurement.ofRaw (tdx : List ℝ) (tdy : List ℂ) (fdx : List ℝ) :
    Measurement :=
  { tdx := tdx, tdy := tdy, fdx := fdx, fdy := dft tdy }

/-- Modelled from the spec: `Measurement.apodization` lives in the host
package.  Per the spec, apodization multiplies the window function `w`,
evaluated at each sample time, into the time-domain signal before
re-transforming; the frequency-domain samples are then recomputed from the
windowed time-domain signal. -/
noncomputable def Measurement.apodization (m : Measurement) (w : ℝ → ℝ) :
    Measurement :=
  let tdy := (m.tdx.zip m.tdy).map fun p => (w p.1 : ℂ) * p.2
  { tdx := m.tdx, tdy := tdy, fdx := m.fdx, fdy := dft tdy }

/-- The invariant of spec section 3: the derived frequency-domain sample
sequence is the discrete Fourier transform of the time-domain sample
sequence. -/
def fftInvariant (m : Measurement) : Prop :=
  m.fdy = dft m.tdy

/-! ## JSON serialization (host package, spec-modelled) -/

/-- A JSON value, as produced by `json.dump` / consumed by `json.load` in
`controller.py`.  Numbers are real (the embedding does not model
floating-point rounding). -/
inductive Json where
  | num (v : ℝ)
  | str (s : String)
  | arr (items : List Json)
  | obj (fields : List (String × Json))

/-- The errors `load_measurement` catches: a missing file
(`FileNotFoundError`), undecodable text (`json.JSONDecodeError`) and a
missing key in a decoded object (`KeyError`). -/
inductive LoadError where
  | fileNotFound
  | jsonDecodeError
  | keyError
deriving DecidableEq

/-- A complex sample serialized as a two-element array `[re, im]`. -/
def complexToJson (z : ℂ) : Json :=
  .arr [.num z.re, .num z.im]

/-- A real-valued axis serialized as an array of numbers. -/
def realListToJson (l : List ℝ) : Json :=
  .arr (l.map .num)

/-- A list of complex samples serialized as an array of `[re, im]` pairs. -/
def complexListToJson (l : List ℂ) : Json :=
  .arr (l.map complexToJson)

/-- Parse a list of JSON numbers back into reals. -/
def jsonNums : List Json → Except LoadError (List ℝ)
  | [] => .ok []
  | .num v :: rest => (jsonNums rest).map (v :: ·)
  | _ => .error .keyError

/-- Parse a JSON array of numbers back into a list of reals. -/
def jsonToRealList : Json → Except LoadError (List ℝ)
  | .arr items => jsonNums items
  | _ => .error .keyError

/-- Parse a list of `[re, im]` arrays back into complex samples. -/
def jsonComplexes : List Json → Except LoadError (List ℂ)
  | [] => .ok []
  | .arr [.num re, .num im] :: rest => (jsonComplexes rest).map (⟨re, im⟩ :: ·)
  | _ => .error .keyError

/-- Parse a JSON array of `[re, im]` arrays back into complex samples. -/
def jsonToComplexList : Json → Except LoadError (List ℂ)
  | .arr items => jsonComplexes items
  | _ => .error .keyError

/-- Look a key up in a JSON object's field list; a missing key is the
`KeyError` that `load_measurement` catches. -/
def getKey : List (String × Json) → String → Except LoadError Json
  | [], _ => .error .keyError
  | (k, v) :: rest, key => if k = key then .ok v else getKey rest key

/-- Modelled from the spec: `Measurement.to_json` lives in the host package.
Per the spec the measurement is persisted as JSON; the serialization stores
the time-domain and frequency-domain sample sequences. -/
def Measurement.to_json (m : Measurement) : Json :=
  .obj [("tdx", realListToJson m.tdx), ("tdy", complexListToJson m.tdy),
        ("fdx", realListToJson m.fdx), ("fdy", complexListToJson m.fdy)]

/-- Chain a key lookup with a real-list parse. -/
def parseReals (j : Except LoadError Json) : Except LoadError (List ℝ) :=
  match j with
  | .error e => .error e
  | .ok j => jsonToRealList j

/-- Chain a key lookup with a complex-list parse. -/
def parseComplexes (j : Except LoadError Json) : Except LoadError (List ℂ) :=
  match j with
  | .error e => .error e
  | .ok j => jsonToComplexList j

/-- Modelled from the spec: `Measurement.from_json` lives in the host
package.  It rebuilds a measurement from the persisted JSON object, raising
`KeyError` when a required key is absent (the exception `load_measurement`
catches). -/
def Measurement.from_json (j : Json) : Except LoadError Measurement :=
  match j with
  | .obj fields =>
    match parseReals (getKey fields "tdx"), parseComplexes (getKey fields "tdy"),
          parseReals (getKey fields "fdx"), parseComplexes (getKey fields "fdy") with
    | .ok tdx, .ok tdy, .ok fdx, .ok fdy =>
      .ok { tdx := tdx, tdy := tdy, fdx := fdx, fdy := fdy }
    | .error e, _, _, _ => .error e
    | _, .error e, _, _ => .error e
    | _, _, .error e, _ => .error e
    | _, _, _, .error e => .error e
  | _ => .error .keyError

/-! ## The file system seen by `save_measurement` / `load_measurement` -/

/-- The content of a file: either text that decodes as JSON, or text on which
`json.load` raises `JSONDecodeError`. -/
inductive FileData where
  | valid (j : Json)
  | invalid (raw : String)

/-- The file system: an association of file names to contents, newest write
first. -/
def FileSystem : Type := List (String × FileData)

/-- Reading a file: the newest content written under the name, if any. -/
def lookupFile : FileSystem → String → Option FileData
  | [], _ => none
  | (n, d) :: rest, name => if n = name then some d else lookupFile rest name

/-- Writing a file. -/
def writeFile (fs : FileSystem) (name : String) (d : FileData) : FileSystem :=
  (name, d) :: fs

/-! ## The model state (model.py is not in src; spec-modelled fields) -/

/-- Modelled from the spec: the view-mode constant for the frequency-domain
view, from the module's model (model.py is not in this repository; the
controller only compares and assigns it). -/
def FFT_VIEW : String := "fft"

/-- Modelled from the spec: the view-mode constant for the time-domain view,
from the module's model. -/
def TIME_VIEW : String := "time"

/-- Modelled from the spec: the module's model (model.py is not in this
repository).  It holds the measurement list, the displayed measurement, the
view mode, and the measurement settings the controller writes
(`measurement_frequency`, `averages` and their validity flags). -/
structure ModelState where
  measurements : List Measurement
  displayed_measurement : Option Measurement
  view_mode : String
  measurement_frequency : ℝ
  averages : ℕ
  frequency_valid : Bool
  averages_valid : Bool

/-- Modelled from the spec: `model.add_measurement` appends the measurement
to the model's measurement list (so `measurements[-1]` is the most recently
added one). -/
def ModelState.add_measurement (st : ModelState) (m : Measurement) : ModelState :=
  { st with measurements := st.measurements ++ [m] }

/-- A notification emitted over `nqrduck_signal`: the pair
`[severity, message]` from `controller.py`. -/
def Notification : Type := String × String

/-! ## The controller (controller.py) -/

/-- `MeasurementController.change_view_mode` (controller.py lines 82-91):
if the model's view mode is `FFT_VIEW` it becomes `TIME_VIEW`, otherwise it
becomes `FFT_VIEW`; nothing else is touched. -/
def change_view_mode (st : ModelState) : ModelState :=
  if st.view_mode = FFT_VIEW then
    { st with view_mode := TIME_VIEW }
  else
    { st with view_mode := FFT_VIEW }

/-- `MeasurementController.save_measurement` (controller.py lines 163-177):
when the model's measurement list is empty it returns without writing;
otherwise it writes the JSON serialization of `measurements[-1]` to the
file. -/
def save_measurement (file_name : String) (st : ModelState) (fs : FileSystem) :
    FileSystem :=
  match st.measurements.getLast? with
  | none => fs
  | some m => writeFile fs file_name (.valid m.to_json)

/-- Setting the displayed measurement, as `model.displayed_measurement = m`. -/
def ModelState.modifyDisplayed (st : ModelState) (m : Measurement) : ModelState :=
  { st with displayed_measurement := some m }

/-- `MeasurementController.load_measurement` (controller.py lines 179-201):
open the file and parse it; on success add the measurement to the model and
display it; on `FileNotFoundError` or on `JSONDecodeError`/`KeyError` leave
the model unchanged and emit an `Error` notification. -/
def load_measurement (file_name : String) (st : ModelState) (fs : FileSystem) :
    ModelState × List Notification :=
  match lookupFile fs file_name with
  | none => (st, [("Error", "File not found.")])
  | some (.invalid _) => (st, [("Error", "File is not a valid measurement file.")])
  | some (.valid j) =>
    match Measurement.from_json j with
    | .error _ => (st, [("Error", "File is not a valid measurement file.")])
    | .ok m => ((st.add_measurement m).modifyDisplayed m, [])

/-- `MeasurementController.show_apodization_dialog` (controller.py lines
203-229): with no displayed measurement, emit an `Error` notification and
return; otherwise apodize the displayed measurement with the accepted window
function, display the result and add it to the measurement list.  `w` is the
window obtained from the dialog's selected `Function`. -/
noncomputable def show_apodization_dialog (st : ModelState) (w : ℝ → ℝ) :
    ModelState × List Notification :=
  match st.displayed_measurement with
  | none => (st, [("Error", "No measurement to apodize.")])
  | some m =>
    let apodized := m.apodization w
    ((st.modifyDisplayed apodized).add_measurement apodized, [])

/-! ## Symbolic functions (nqrduck.helpers.functions, spec-modelled base;
     FIDFunction and LorentzianFunction from signalprocessing_options.py) -/

/-- A symbolic expression over the single free variable `x` and named numeric
parameters, as built by `sympy.sympify` in signalprocessing_options.py. -/
inductive FnExpr where
  | var
  | const (q : ℚ)
  | param (s : String)
  | neg (e : FnExpr)
  | add (a b : FnExpr)
  | mul (a b : FnExpr)
  | div (a b : FnExpr)
  | pow (a : FnExpr) (n : ℕ)
  | exp (e : FnExpr)
deriving DecidableEq

/-- Evaluate an expression at a value of the free variable `x` under an
assignment of the named parameters. -/
noncomputable def FnExpr.eval (σ : String → ℝ) (x : ℝ) : FnExpr → ℝ
  | .var => x
  | .const q => (q : ℝ)
  | .param s => σ s
  | .neg e => -(e.eval σ x)
  | .add a b => a.eval σ x + b.eval σ x
  | .mul a b => a.eval σ x * b.eval σ x
  | .div a b => a.eval σ x / b.eval σ x
  | .pow a n => (a.eval σ x) ^ n
  | .exp e => Real.exp (e.eval σ x)

/-- Whether the free variable `x` occurs in the expression. -/
def FnExpr.usesX : FnExpr → Bool
  | .var => true
  | .const _ => false
  | .param _ => false
  | .neg e => e.usesX
  | .add a b => a.usesX || b.usesX
  | .mul a b => a.usesX || b.usesX
  | .div a b => a.usesX || b.usesX
  | .pow a _ => a.usesX
  | .exp e => e.usesX

/-- The parameter symbols occurring in the expression. -/
def FnExpr.paramsUsed : FnExpr → List String
  | .var => []
  | .const _ => []
  | .param s => [s]
  | .neg e => e.paramsUsed
  | .add a b => a.paramsUsed ++ b.paramsUsed
  | .mul a b => a.paramsUsed ++ b.paramsUsed
  | .div a b => a.paramsUsed ++ b.paramsUsed
  | .pow a _ => a.paramsUsed
  | .exp e => e.paramsUsed

/-- Modelled from the spec: `Function.Parameter` from
`nqrduck.helpers.functions`.  A named numeric parameter with a display name,
a symbol and a default value, as constructed by
`Function.Parameter("T2star (microseconds)", "T2star", 10)`. -/
structure FunctionParameter where
  displayName : String
  symbol : String
  defaultValue : ℚ
deriving DecidableEq

/-- Modelled from the spec: the `Function` base class from
`nqrduck.helpers.functions`.  A symbolic expression over one free variable
plus named numeric parameters, evaluable over the interval from `start_x` to
`end_x`. -/
structure Function where
  name : String
  expr : FnExpr
  parameters : List FunctionParameter
  start_x : ℚ
  end_x : ℚ
deriving DecidableEq

/-- Evaluate a `Function` at `x` under a parameter assignment. -/
noncomputable def Function.eval (f : Function) (σ : String → ℝ) (x : ℝ) : ℝ :=
  f.expr.eval σ x

/-- `FIDFunction` (signalprocessing_options.py lines 17-29): the exponential
FID window `exp( -x / T2star )` on the interval from 0 to 30, with the single
parameter `T2star` (display name "T2star (microseconds)") defaulting to
10. -/
def FIDFunction : Function :=
  { name := "FID",
    expr := .exp (.neg (.div .var (.param "T2star"))),
    parameters := [⟨"T2star (microseconds)", "T2star", 10⟩],
    start_x := 0,
    end_x := 30 }

/-- `LorentzianFunction` (signalprocessing_options.py lines 32-44): the
Lorentzian window `1 / (1 + (x / T2star)^2)` on the interval from 0 to 30,
with the single parameter `T2star` defaulting to 10. -/
def LorentzianFunction : Function :=
  { name := "Lorentzian",
    expr := .div (.const 1) (.add (.const 1) (.pow (.div .var (.param "T2star")) 2)),
    parameters := [⟨"T2star (microseconds)", "T2star", 10⟩],
    start_x := 0,
    end_x := 30 }

/-- Modelled from the spec: `GaussianFunction` from
`nqrduck.helpers.functions`, the Gaussian window offered alongside the FID
window (spec: "parametrized windowing function (e.g. decaying exponential,
Gaussian, user-defined expression)"). -/
def GaussianFunction : Function :=
  { name := "Gaussian",
    expr := .exp (.neg (.pow (.div .var (.param "sigma")) 2)),
    parameters := [⟨"Sigma", "sigma", 10⟩],
    start_x := 0,
    end_x := 30 }

/-- Modelled from the spec: `CustomFunction` from
`nqrduck.helpers.functions`, the user-defined expression offered alongside
the FID window. -/
def CustomFunction : Function :=
  { name := "Custom",
    expr := .var,
    parameters := [],
    start_x := 0,
    end_x := 30 }

/-! ## The apodization and fitting dialogs (signalprocessing_options.py) -/

/-- The functions the `Apodization` dialog offers
(signalprocessing_options.py lines 59-63): the FID window, the Gaussian
window and the user-defined expression. -/
def Apodization.functions : List Function :=
  [FIDFunction, GaussianFunction, CustomFunction]

/-- The dialog's default function selection (`default_function=0`). -/
def Apodization.default_function : ℕ := 0

/-- `Apodization.get_function`: the function the user selected in the
dialog's function-selection field. -/
def Apodization.get_function (selected : ℕ) : Option Function :=
  Apodization.functions.get? selected

/-- Modelled from the spec: `T2StarFit` from
`nqrduck_spectrometer.measurement`.  It holds the measurement whose
time-domain magnitude the exponential-decay model is fit to. -/
structure T2StarFit where
  measurement : Measurement

/-- The closed-form exponential-decay model `a · exp(-t / T2star)` (spec:
"closed-form model (e.g. exponential decay)"). -/
noncomputable def expDecayModel (a T2star t : ℝ) : ℝ :=
  a * Real.exp (-t / T2star)

/-- The least-squares error of the exponential-decay model with parameters
`(a, T2star)` against the magnitude of the measurement's time-domain
signal. -/
noncomputable def t2LeastSquaresError (m : Measurement) (a T2star : ℝ) : ℝ :=
  (((m.tdx.zip m.tdy).map fun p =>
      (expDecayModel a T2star p.1 - Complex.abs p.2) ^ 2)).sum

/-- `T2star` is a least-squares estimate for the measurement: together with
some amplitude `a` it minimizes the least-squares error over all parameter
pairs. -/
def IsT2StarEstimate (m : Measurement) (T2star : ℝ) : Prop :=
  ∃ a, ∀ a' T2star', t2LeastSquaresError m a T2star ≤ t2LeastSquaresError m a' T2star'

/-- Modelled from the spec: the fit result of `T2StarFit`, the decay
constant estimated via least-squares curve fitting ("T2*: empirical decay
time constant ... estimated via curve fitting"). -/
noncomputable def T2StarFit.t2star (f : T2StarFit) : ℝ :=
  Classical.epsilon (IsT2StarEstimate f.measurement)

/-- The fits the `Fitting` dialog offers (signalprocessing_options.py lines
100-101): only the `T2*` fit, built on the dialog's measurement. -/
def Fitting.fits (m : Measurement) : List (String × T2StarFit) :=
  [("T2*", ⟨m⟩)]

/-- The dialog's default fit selection (`default_option=0`). -/
def Fitting.default_option : ℕ := 0

/-- `Fitting.get_fit`: the fit selected in the dialog's dropdown; with the
default selection this is the `T2*` fit of the dialog's measurement. -/
def Fitting.get_fit (m : Measurement) (selected : ℕ) : Option T2StarFit :=
  ((Fitting.fits m).get? selected).map (·.2)

/-! ## Helper lemmas -/

/-- Parsing back a serialized list of reals recovers the list. -/
theorem jsonNums_map (l : List ℝ) : jsonNums (l.map .num) = .ok l := by
  induction l with
  | nil => rfl
  | cons x xs ih => simp [jsonNums, ih, Except.map]

/-- Parsing back a serialized list of complex samples recovers the list. -/
theorem jsonComplexes_map (l : List ℂ) :
    jsonComplexes (l.map complexToJson) = .ok l := by
  induction l with
  | nil => rfl
  | cons z zs ih => simp [jsonComplexes, complexToJson, ih, Except.map, Complex.eta]

/-- Deserializing a serialized measurement recovers it exactly. -/
theorem from_json_to_json (m : Measurement) :
    Measurement.from_json m.to_json = .ok m := by
  simp [Measurement.from_json, Measurement.to_json, getKey, parseReals, parseComplexes,
        jsonToRealList, jsonToComplexList, realListToJson, complexListToJson,
        jsonNums_map, jsonComplexes_map]

/-- Indexing a zipped-and-mapped pair of lists. -/
theorem getElem?_zip_map {α β γ : Type} (f : α × β → γ) :
    ∀ (xs : List α) (ys : List β) (i : ℕ) (x : α) (y : β),
      xs[i]? = some x → ys[i]? = some y → ((xs.zip ys).map f)[i]? = some (f (x, y)) := by
  intro xs
  induction xs with
  | nil => intro ys i x y hx; simp at hx
  | cons a as ih =>
    intro ys i x y hx hy
    cases ys with
    | nil => simp at hy
    | cons b bs =>
      cases i with
      | zero =>
        simp only [List.getElem?_cons_zero, Option.some_inj] at hx hy
        simp [hx, hy]
      | succ n =>
        simp only [List.getElem?_cons_succ] at hx hy
        simpa using ih bs n x y hx hy

/-! ## Claim theorems -/

/-- C1: saving the most recently added measurement with `save_measurement`
and loading the written file with `load_measurement` (into any model state)
yields a displayed measurement whose time-domain and frequency-domain sample
values equal those of the saved measurement. -/
theorem save_load_roundtrip (name : String) (st st₂ : ModelState) (fs : FileSystem)
    (m : Measurement) (h : st.measurements.getLast? = some m) :
    ∃ m', (load_measurement name st₂ (save_measurement name st fs)).1.displayed_measurement
            = some m' ∧
      m'.tdx = m.tdx ∧ m'.tdy = m.tdy ∧ m'.fdx = m.fdx ∧ m'.fdy = m.fdy := by
  refine ⟨m, ?_, rfl, rfl, rfl, rfl⟩
  simp [save_measurement, h, writeFile, load_measurement, lookupFile, from_json_to_json,
        ModelState.add_measurement, ModelState.modifyDisplayed]

/-- Witness for C1 at a one-measurement model state and an empty file
system. -/
theorem save_load_roundtrip_witness :
    ∃ m', (load_measurement "a"
            ⟨[], none, TIME_VIEW, 0, 0, false, false⟩
            (save_measurement "a"
              ⟨[⟨[], [], [], []⟩], none, TIME_VIEW, 0, 0, false, false⟩ [])).1.displayed_measurement
          = some m' ∧
      m'.tdx = Measurement.tdx ⟨[], [], [], []⟩ ∧
      m'.tdy = Measurement.tdy ⟨[], [], [], []⟩ ∧
      m'.fdx = Measurement.fdx ⟨[], [], [], []⟩ ∧
      m'.fdy = Measurement.fdy ⟨[], [], [], []⟩ :=
  save_load_roundtrip "a" ⟨[⟨[], [], [], []⟩], none, TIME_VIEW, 0, 0, false, false⟩
    ⟨[], none, TIME_VIEW, 0, 0, false, false⟩ [] ⟨[], [], [], []⟩ rfl

/-- C2: every measurement built from raw time-domain data, and every
measurement produced by apodization, has its frequency-domain sample
sequence equal to the discrete Fourier transform of its time-domain sample
sequence (the forward transform is recomputed when raw data changes and when
a processing function is applied). -/
theorem fft_invariant_maintained :
    (∀ (tdx : List ℝ) (tdy : List ℂ) (fdx : List ℝ),
      fftInvariant (Measurement.ofRaw tdx tdy fdx)) ∧
    (∀ (m : Measurement) (w : ℝ → ℝ), fftInvariant (m.apodization w)) :=
  ⟨fun _ _ _ => rfl, fun _ _ => rfl⟩

/-- C3: with a displayed measurement, the apodization flow produces a new
measurement whose time-domain signal at each sample time equals the original
amplitude multiplied by the window value there, whose frequency-domain
samples are the transform of the windowed signal; the result becomes the
displayed measurement and is appended to the measurement list. -/
theorem show_apodization_dialog_spec (st : ModelState) (w : ℝ → ℝ) (m : Measurement)
    (h : st.displayed_measurement = some m) :
    (show_apodization_dialog st w).1.displayed_measurement = some (m.apodization w) ∧
    (show_apodization_dialog st w).1.measurements = st.measurements ++ [m.apodization w] ∧
    (∀ (i : ℕ) (t : ℝ) (y : ℂ), m.tdx[i]? = some t → m.tdy[i]? = some y →
      (m.apodization w).tdy[i]? = some ((w t : ℂ) * y)) ∧
    (m.apodization w).fdy = dft ((m.apodization w).tdy) := by
  refine ⟨?_, ?_, ?_, rfl⟩
  · simp [show_apodization_dialog, h, ModelState.modifyDisplayed,
          ModelState.add_measurement]
  · simp [show_apodization_dialog, h, ModelState.modifyDisplayed,
          ModelState.add_measurement]
  · intro i t y ht hy
    exact getElem?_zip_map (fun p => (w p.1 : ℂ) * p.2) m.tdx m.tdy i t y ht hy

/-- Witness for C3 at a concrete displayed measurement and the constant-zero
window. -/
theorem show_apodization_dialog_spec_witness :
    (show_apodization_dialog
      ⟨[], some ⟨[], [], [], []⟩, TIME_VIEW, 0, 0, false, false⟩
      (fun _ => 0)).1.displayed_measurement
      = some (Measurement.apodization ⟨[], [], [], []⟩ (fun _ => 0)) :=
  (show_apodization_dialog_spec
    ⟨[], some ⟨[], [], [], []⟩, TIME_VIEW, 0, 0, false, false⟩
    (fun _ => 0) ⟨[], [], [], []⟩ rfl).1

/-- C4: the fitting dialog's selected fit (with the default selection) is the
`T2*` fit of the dialog's measurement, and whenever the least-squares problem
for the exponential-decay model against the time-domain magnitude has a
minimizer, the returned decay-constant estimate is such a least-squares
estimate. -/
theorem t2star_fit_spec (m : Measurement) :
    Fitting.get_fit m Fitting.default_option = some ⟨m⟩ ∧
    ((∃ T2star, IsT2StarEstimate m T2star) →
      IsT2StarEstimate m (T2StarFit.t2star ⟨m⟩)) := by
  constructor
  · rfl
  · intro h
    exact Classical.epsilon_spec h

/-- Witness for C4 at the empty measurement, where the least-squares error is
identically zero and every parameter pair is a minimizer. -/
theorem t2star_fit_spec_witness :
    IsT2StarEstimate ⟨[], [], [], []⟩ (T2StarFit.t2star ⟨⟨[], [], [], []⟩⟩) :=
  (t2star_fit_spec ⟨[], [], [], []⟩).2 ⟨1, 0, fun _ _ => le_rfl⟩

/-- C5: loading from a missing file, from a file that does not decode as
JSON, or from JSON lacking a required key leaves the model unchanged and
emits an `Error` notification; only on a fully successful parse is the
measurement appended and made the displayed measurement. -/
theorem load_measurement_spec (name : String) (st : ModelState) (fs : FileSystem) :
    (lookupFile fs name = none →
      load_measurement name st fs = (st, [("Error", "File not found.")])) ∧
    (∀ raw, lookupFile fs name = some (.invalid raw) →
      load_measurement name st fs =
        (st, [("Error", "File is not a valid measurement file.")])) ∧
    (∀ j e, lookupFile fs name = some (.valid j) → Measurement.from_json j = .error e →
      load_measurement name st fs =
        (st, [("Error", "File is not a valid measurement file.")])) ∧
    (∀ j m, lookupFile fs name = some (.valid j) → Measurement.from_json j = .ok m →
      load_measurement name st fs =
        ({ st with measurements := st.measurements ++ [m],
                   displayed_measurement := some m }, [])) := by
  refine ⟨?_, ?_, ?_, ?_⟩
  · intro h; simp [load_measurement, h]
  · intro raw h; simp [load_measurement, h]
  · intro j e h hj; simp [load_measurement, h, hj]
  · intro j m h hj
    simp [load_measurement, h, hj, ModelState.add_measurement, ModelState.modifyDisplayed]

/-- Witness for C5: loading from an empty file system leaves a concrete model
state unchanged and emits the file-not-found notification. -/
theorem load_measurement_spec_witness :
    load_measurement "a" ⟨[], none, TIME_VIEW, 0, 0, false, false⟩ [] =
      (⟨[], none, TIME_VIEW, 0, 0, false, false⟩, [("Error", "File not found.")]) :=
  (load_measurement_spec "a" ⟨[], none, TIME_VIEW, 0, 0, false, false⟩ []).1 rfl

/-- C6: the functions defined for signal processing each consist of a
symbolic expression whose only free variable is `x`, whose parameter symbols
are exactly the symbols of its named parameters (each with display name,
symbol and default value), over the finite interval from `start_x` to
`end_x`; their evaluations are the source formulas. -/
theorem function_shape_spec :
    (FIDFunction.expr.usesX = true ∧
     FIDFunction.expr.paramsUsed = FIDFunction.parameters.map (·.symbol) ∧
     FIDFunction.parameters = [⟨"T2star (microseconds)", "T2star", 10⟩] ∧
     FIDFunction.start_x < FIDFunction.end_x ∧
     (∀ (σ : String → ℝ) (x : ℝ),
       FIDFunction.eval σ x = Real.exp (-(x / σ "T2star")))) ∧
    (LorentzianFunction.expr.usesX = true ∧
     LorentzianFunction.expr.paramsUsed = LorentzianFunction.parameters.map (·.symbol) ∧
     LorentzianFunction.parameters = [⟨"T2star (microseconds)", "T2star", 10⟩] ∧
     LorentzianFunction.start_x < LorentzianFunction.end_x ∧
     (∀ (σ : String → ℝ) (x : ℝ),
       LorentzianFunction.eval σ x = 1 / (1 + (x / σ "T2star") ^ 2))) := by
  refine ⟨⟨rfl, rfl, rfl, by norm_num [FIDFunction], fun σ x => ?_⟩,
          ⟨rfl, rfl, rfl, by norm_num [LorentzianFunction], fun σ x => ?_⟩⟩
  · simp [Function.eval, FnExpr.eval, FIDFunction]
  · simp [Function.eval, FnExpr.eval, LorentzianFunction]

/-- C7: the FID apodization window offered (and the dialog's default
selection) is the decaying exponential `exp(-x / T2star)` with the single
parameter `T2star` defaulting to 10, defined from `x = 0` to `x = 30`. -/
theorem fid_function_spec :
    FIDFunction.expr = .exp (.neg (.div .var (.param "T2star"))) ∧
    FIDFunction.parameters = [⟨"T2star (microseconds)", "T2star", 10⟩] ∧
    FIDFunction.start_x = 0 ∧
    FIDFunction.end_x = 30 ∧
    (∀ (σ : String → ℝ) (x : ℝ),
      FIDFunction.eval σ x = Real.exp (-(x / σ "T2star"))) ∧
    Apodization.get_function Apodization.default_function = some FIDFunction := by
  refine ⟨rfl, rfl, rfl, rfl, fun σ x => ?_, rfl⟩
  simp [Function.eval, FnExpr.eval, FIDFunction]

/-- C8: with an empty measurement list `save_measurement` writes nothing;
otherwise it writes the JSON serialization of the last (most recently added)
measurement, independently of which measurement is displayed. -/
theorem save_measurement_spec (name : String) (st : ModelState) (fs : FileSystem) :
    (st.measurements = [] → save_measurement name st fs = fs) ∧
    (∀ m, st.measurements.getLast? = some m →
      save_measurement name st fs = writeFile fs name (.valid m.to_json) ∧
      lookupFile (save_measurement name st fs) name = some (.valid m.to_json)) ∧
    (∀ d, save_measurement name { st with displayed_measurement := d } fs =
      save_measurement name st fs) := by
  refine ⟨?_, ?_, ?_⟩
  · intro h; simp [save_measurement, h]
  · intro m hm; constructor
    · simp [save_measurement, hm]
    · simp [save_measurement, hm, writeFile, lookupFile]
  · intro d; simp [save_measurement]

/-- Witness for C8: saving from a concrete empty-list model state leaves an
empty file system unchanged. -/
theorem save_measurement_spec_witness :
    save_measurement "a" ⟨[], none, TIME_VIEW, 0, 0, false, false⟩ [] = [] :=
  (save_measurement_spec "a" ⟨[], none, TIME_VIEW, 0, 0, false, false⟩ []).1 rfl

/-- C9: `change_view_mode` maps `FFT_VIEW` to `TIME_VIEW` and any other mode
to `FFT_VIEW`, so on `{FFT_VIEW, TIME_VIEW}` two calls restore the starting
mode, and no other model field is modified. -/
theorem change_view_mode_involutive (st : ModelState) :
    ((st.view_mode = FFT_VIEW ∨ st.view_mode = TIME_VIEW) →
      (change_view_mode (change_view_mode st)).view_mode = st.view_mode) ∧
    (st.view_mode = FFT_VIEW → (change_view_mode st).view_mode = TIME_VIEW) ∧
    (st.view_mode ≠ FFT_VIEW → (change_view_mode st).view_mode = FFT_VIEW) ∧
    (change_view_mode st).measurements = st.measurements ∧
    (change_view_mode st).displayed_measurement = st.displayed_measurement ∧
    (change_view_mode st).measurement_frequency = st.measurement_frequency ∧
    (change_view_mode st).averages = st.averages ∧
    (change_view_mode st).frequency_valid = st.frequency_valid ∧
    (change_view_mode st).averages_valid = st.averages_valid := by
  have hcvm : ∀ s : ModelState, change_view_mode s =
      { s with view_mode := if s.view_mode = FFT_VIEW then TIME_VIEW else FFT_VIEW } := by
    intro s
    by_cases hs : s.view_mode = FFT_VIEW <;> simp [change_view_mode, hs]
  refine ⟨?_, ?_, ?_, ?_, ?_, ?_, ?_, ?_, ?_⟩
  · rintro (he | ht)
    · simp [hcvm, he, FFT_VIEW, TIME_VIEW]
    · simp [hcvm, ht, FFT_VIEW, TIME_VIEW]
  · intro he; simp [hcvm, he]
  · intro hn; simp [hcvm, hn]
  all_goals simp [hcvm]

/-- Witness for C9: two calls starting from `FFT_VIEW` restore `FFT_VIEW`. -/
theorem change_view_mode_involutive_witness :
    (change_view_mode (change_view_mode
      ⟨[], none, FFT_VIEW, 0, 0, false, false⟩)).view_mode = FFT_VIEW :=
  (change_view_mode_involutive ⟨[], none, FFT_VIEW, 0, 0, false, false⟩).1 (Or.inl rfl)

end NqrduckMeasurement
